import Mathlib

/-!
Verification development for the env-data-pipeline repository.

The definitions below are shallow embeddings of the Python source:

* `apply_modis_scaling` embeds `src/metadata/modis_interpretation.py`
  (`apply_modis_scaling` and `build_modis_scaling_table`);
* `valueMapGet`, `calcCoverage` embed the decode / coverage logic of
  `src/metadata/landfire_interpretation.py`
  (`_decode_categorical_values`, `_calculate_coverage`);
* `analyzeAspectDistribution` embeds `_analyze_aspect_distribution`;
* `interpretSingleValue`, `interpretPixelAtCoordinate` embed
  `src/containers/landfire/landfire_container.py`;
* `getLocationData` embeds `EnvironmentalDataPipeline.get_location_data`
  and `_calculate_data_currency` of `src/pipeline.py`;
* `collectEnvironmentalData` embeds `collect_environmental_data` of
  `src/containers/orchestrator/orchestrator.py`;
* `validateCoordinateBounds` embeds `validate_coordinate_bounds`;
* `decodeStep` embeds the attribute-table cache logic of
  `_decode_categorical_values`.

Python floats are modelled by `ℚ`, Python ints by `ℤ`/`ℕ`, dictionaries by
association lists with last-write-wins insertion (`insertOverwrite`), and
Python `round(x, 2)` (round-half-to-even) by `round2`.
-/

/-- Round-half-to-even on rationals: the behaviour of Python `round(x)`
restricted to one decimal-free digit position. -/
def roundHalfEven (q : ℚ) : ℤ :=
  let f := ⌊q⌋
  let frac := q - f
  if frac < 1/2 then f
  else if 1/2 < frac then f + 1
  else if f % 2 = 0 then f else f + 1

/-- Python `round(x, 2)`: scale by 100, round half to even, scale back. -/
def round2 (q : ℚ) : ℚ :=
  (roundHalfEven (q * 100) : ℚ) / 100

/-- `|roundHalfEven q − q| ≤ 1/2`: half-to-even rounding is a nearest rounding. -/
theorem roundHalfEven_close (q : ℚ) : |(roundHalfEven q : ℚ) - q| ≤ 1/2 := by
  have h0 : (⌊q⌋ : ℚ) ≤ q := Int.floor_le q
  have h1 : q < (⌊q⌋ : ℚ) + 1 := Int.lt_floor_add_one q
  unfold roundHalfEven
  simp only []
  split
  · rw [abs_le]; constructor <;> [linarith; linarith]
  · rename_i h
    push_neg at h
    split
    · rename_i h2
      push_cast
      rw [abs_le]; constructor <;> [linarith; linarith]
    · rename_i h2
      push_neg at h2
      have heq : q - (⌊q⌋ : ℚ) = 1/2 := le_antisymm h2 h
      split
      · rw [abs_le]; constructor <;> [linarith; linarith]
      · push_cast
        rw [abs_le]; constructor <;> [linarith; linarith]

/-- `|round2 q − q| ≤ 1/200` : rounding to two decimals moves a value by at
most half of the last kept digit. -/
theorem round2_close (q : ℚ) : |round2 q - q| ≤ 1/200 := by
  have h := roundHalfEven_close (q * 100)
  unfold round2
  have : (roundHalfEven (q * 100) : ℚ) / 100 - q
      = ((roundHalfEven (q * 100) : ℚ) - q * 100) / 100 := by ring
  rw [this, abs_div]
  have h100 : |(100 : ℚ)| = 100 := by norm_num
  rw [h100]
  rw [div_le_iff₀ (by norm_num : (0:ℚ) < 100)]
  linarith

/-- Python-dict insertion: overwrite the value at an existing key (keeping its
position) or append a fresh key at the end. -/
def insertOverwrite {κ ν : Type} [DecidableEq κ] :
    List (κ × ν) → κ → ν → List (κ × ν)
  | [], k, v => [(k, v)]
  | (k₀, v₀) :: rest, k, v =>
      if k₀ = k then (k₀, v) :: rest
      else (k₀, v₀) :: insertOverwrite rest k v

/-- When the key is fresh, Python-dict insertion is appending. -/
theorem insertOverwrite_fresh {κ ν : Type} [DecidableEq κ]
    (l : List (κ × ν)) (k : κ) (v : ν) (h : k ∉ l.map Prod.fst) :
    insertOverwrite l k v = l ++ [(k, v)] := by
  induction l with
  | nil => rfl
  | cons p rest ih =>
      simp only [List.map_cons, List.mem_cons] at h
      push_neg at h
      cases p with
      | mk k₀ v₀ =>
          simp only [insertOverwrite]
          rw [if_neg (fun he => h.1 he.symm), ih h.2]
          rfl

/-- Insertion sort on integers; models the ascending order of `np.unique`. -/
def insertSorted (x : ℤ) : List ℤ → List ℤ
  | [] => [x]
  | y :: ys => if x ≤ y then x :: y :: ys else y :: insertSorted x ys

/-- Sort a list of integers ascending (insertion sort). -/
def sortInts (xs : List ℤ) : List ℤ :=
  xs.foldr insertSorted []

/-- `np.unique`: the distinct values of the input, in ascending order. -/
def uniqueValues (xs : List ℤ) : List ℤ :=
  sortInts xs.dedup

theorem insertSorted_perm (x : ℤ) (ys : List ℤ) :
    List.Perm (insertSorted x ys) (x :: ys) := by
  induction ys with
  | nil => rfl
  | cons y ys ih =>
      simp only [insertSorted]
      split
      · rfl
      · exact ((ih.cons y).trans (List.Perm.swap x y ys))

theorem sortInts_perm (xs : List ℤ) : List.Perm (sortInts xs) xs := by
  induction xs with
  | nil => rfl
  | cons x xs ih =>
      simp only [sortInts, List.foldr_cons]
      exact (insertSorted_perm x (sortInts xs)).trans (ih.cons x)

theorem uniqueValues_perm_dedup (xs : List ℤ) : List.Perm (uniqueValues xs) xs.dedup :=
  sortInts_perm xs.dedup

theorem uniqueValues_nodup (xs : List ℤ) : (uniqueValues xs).Nodup :=
  ((uniqueValues_perm_dedup xs).nodup_iff).mpr xs.nodup_dedup

/-! ## MODIS continuous scaling (`src/metadata/modis_interpretation.py`) -/

/-- One entry of `build_modis_scaling_table`: scale factor, optional offset,
inclusive valid range and fill value for a (product, layer) pair. -/
structure ScalingEntry where
  scale_factor : ℚ
  offset : Option ℚ
  valid_range : ℤ × ℤ
  fill_value : ℤ
deriving DecidableEq

/-- `build_modis_scaling_table()` from `modis_interpretation.py`, keyed by
product then layer. -/
def modisScalingTable : String → String → Option ScalingEntry
  | "MOD13Q1", "250m_16_days_NDVI" =>
      some { scale_factor := 0.0001, offset := none,
             valid_range := (-2000, 10000), fill_value := -3000 }
  | "MOD13Q1", "250m_16_days_EVI" =>
      some { scale_factor := 0.0001, offset := none,
             valid_range := (-2000, 10000), fill_value := -3000 }
  | "MYD13Q1", "250m_16_days_NDVI" =>
      some { scale_factor := 0.0001, offset := none,
             valid_range := (-2000, 10000), fill_value := -3000 }
  | "MYD13Q1", "250m_16_days_EVI" =>
      some { scale_factor := 0.0001, offset := none,
             valid_range := (-2000, 10000), fill_value := -3000 }
  | "MOD15A2H", "Lai_500m" =>
      some { scale_factor := 0.1, offset := none,
             valid_range := (0, 100), fill_value := 255 }
  | "MOD15A2H", "Fpar_500m" =>
      some { scale_factor := 0.01, offset := none,
             valid_range := (0, 100), fill_value := 255 }
  | "MYD15A2H", "Lai_500m" =>
      some { scale_factor := 0.1, offset := none,
             valid_range := (0, 100), fill_value := 255 }
  | "MYD15A2H", "Fpar_500m" =>
      some { scale_factor := 0.01, offset := none,
             valid_range := (0, 100), fill_value := 255 }
  | "MOD11A2", "LST_Day_1km" =>
      some { scale_factor := 0.02, offset := some 273.15,
             valid_range := (7500, 65535), fill_value := 0 }
  | "MOD11A2", "LST_Night_1km" =>
      some { scale_factor := 0.02, offset := some 273.15,
             valid_range := (7500, 65535), fill_value := 0 }
  | "MYD11A2", "LST_Day_1km" =>
      some { scale_factor := 0.02, offset := some 273.15,
             valid_range := (7500, 65535), fill_value := 0 }
  | "MYD11A2", "LST_Night_1km" =>
      some { scale_factor := 0.02, offset := some 273.15,
             valid_range := (7500, 65535), fill_value := 0 }
  | "MOD17A2H", "Gpp_500m" =>
      some { scale_factor := 0.0001, offset := none,
             valid_range := (0, 30000), fill_value := 65535 }
  | "MYD17A2H", "Gpp_500m" =>
      some { scale_factor := 0.0001, offset := none,
             valid_range := (0, 30000), fill_value := 65535 }
  | _, _ => none

/-- Result of `apply_modis_scaling`: either `np.nan` (`invalid`) or a
physical value. The passthrough of an unscaled raw integer is `val raw`. -/
inductive ScaledValue where
  | invalid
  | val (q : ℚ)
deriving DecidableEq

/-- `apply_modis_scaling(raw_value, product, layer)` from
`modis_interpretation.py`: passthrough when no scaling entry exists, `nan`
on fill value or out-of-range, else `raw * scale_factor` plus the offset
when one is present. -/
def apply_modis_scaling (raw : ℤ) (product layer : String) : ScaledValue :=
  match modisScalingTable product layer with
  | none => .val raw
  | some info =>
      if raw = info.fill_value then .invalid
      else if raw < info.valid_range.1 ∨ info.valid_range.2 < raw then .invalid
      else
        let scaled : ℚ := (raw : ℚ) * info.scale_factor
        match info.offset with
        | some off => .val (scaled + off)
        | none => .val scaled

/-- Modelled from the spec (§4.3 ContinuousScaler): `Invalid` exactly on the
fill value or outside `[lo, hi]`, otherwise `raw * scale_factor + offset`
with the offset defaulting to 0 when absent. -/
def scaleSpecValue (raw : ℤ) (e : ScalingEntry) : ScaledValue :=
  if raw = e.fill_value ∨ raw < e.valid_range.1 ∨ e.valid_range.2 < raw then
    .invalid
  else
    .val ((raw : ℚ) * e.scale_factor + e.offset.getD 0)

/-- Claim C3: for every (product, layer) with a scaling entry,
`apply_modis_scaling` is `Invalid` (NaN) iff the raw value equals the
entry's fill value or lies outside its valid range, and otherwise equals
`raw * scale_factor + offset` (offset defaulting to 0); for every
(product, layer) without an entry it returns the raw value unchanged. -/
theorem claim_C3 (product layer : String) (raw : ℤ) :
    (∀ e : ScalingEntry, modisScalingTable product layer = some e →
        apply_modis_scaling raw product layer = scaleSpecValue raw e) ∧
    (modisScalingTable product layer = none →
        apply_modis_scaling raw product layer = .val raw) := by
  constructor
  · intro e he
    unfold apply_modis_scaling scaleSpecValue
    rw [he]
    by_cases hf : raw = e.fill_value
    · simp [hf]
    · by_cases hr : raw < e.valid_range.1 ∨ e.valid_range.2 < raw
      · simp [hf, hr]
      · cases hoff : e.offset with
        | none => simp [hf, hr, hoff]
        | some off => simp [hf, hr, hoff]
  · intro he
    unfold apply_modis_scaling
    rw [he]

/-- Witness for C3: a concrete LST value is scaled with its offset, the NDVI
fill value is invalid, and an unknown layer passes through unchanged. -/
theorem claim_C3_witness :
    apply_modis_scaling 10000 "MOD11A2" "LST_Day_1km" = ScaledValue.val (9463/20) ∧
    apply_modis_scaling (-3000) "MOD13Q1" "250m_16_days_NDVI" = ScaledValue.invalid ∧
    apply_modis_scaling 42 "UNLISTED" "layer" = ScaledValue.val 42 := by
  refine ⟨?_, ?_, ?_⟩
  · rw [(claim_C3 "MOD11A2" "LST_Day_1km" 10000).1 _ rfl]
    norm_num [scaleSpecValue]
  · rw [(claim_C3 "MOD13Q1" "250m_16_days_NDVI" (-3000)).1 _ rfl]
    norm_num [scaleSpecValue]
  · exact (claim_C3 "UNLISTED" "layer" 42).2 rfl

/-! ## Categorical decoding (`landfire_interpretation.py`,
`landfire_container.py`) -/

/-- `value_map.get(int(value), f'Unknown ({value})')` from
`_decode_categorical_values` / `_calculate_coverage`: exact-integer lookup
with an `Unknown (<code>)` default. -/
def valueMapGet (m : List (ℤ × String)) (code : ℤ) : String :=
  match m.lookup code with
  | some l => l
  | none => s!"Unknown ({code})"

/-- `LANDFIREMetadataExtractor._fallback_values` of
`landfire_container.py`: per product, half-open code ranges with labels plus
the `'default'` label. Unlisted products have no fallback map. -/
def containerFallback :
    String → Option (List ((ℤ × ℤ) × String) × String)
  | "vegetation_type" =>
      some ([((7000, 8000), "Urban/Developed"),
             ((6000, 7000), "Agriculture/Cropland"),
             ((3000, 4000), "Forest"),
             ((2000, 3000), "Grassland"),
             ((4000, 5000), "Shrubland")],
            "Unknown Vegetation Type")
  | "fuel_model" =>
      some ([((90, 100), "Non-burnable"),
             ((100, 110), "Grass"),
             ((110, 130), "Timber"),
             ((140, 150), "Shrub")],
            "Unknown Fuel Model")
  | _ => none

/-- `_interpret_single_value(pixel_value, product_type)` from
`landfire_container.py`: first matching range bucket, else the product's
`'default'` label, else `Unknown (<code>)` when the product has no fallback
map. (The direct-key check of the Python code never fires because the dict
keys are `range` objects and the string `'default'`, never ints.) -/
def interpretSingleValue (product : String) (v : ℤ) : String :=
  match containerFallback product with
  | none => s!"Unknown ({v})"
  | some (ranges, dflt) =>
      match ranges.find? (fun r => decide (r.1.1 ≤ v ∧ v < r.1.2)) with
      | some r => r.2
      | none => dflt

/-- Counterexample to claim C4: the container's decode of vegetation code 1
(absent from the active table) yields the product default label
`"Unknown Vegetation Type"`, not the interpolated `"Unknown (1)"` the claim
requires. -/
theorem claim_C4_cex :
    interpretSingleValue "vegetation_type" 1 = "Unknown Vegetation Type" ∧
    interpretSingleValue "vegetation_type" 1 ≠ "Unknown (1)" := by
  constructor
  · rfl
  · intro h
    simp [interpretSingleValue, containerFallback] at h

/-- Claim C4 (amended): the metadata-extractor decode
(`_decode_categorical_values`) returns the label bound to the exact integer
when present and exactly `Unknown (<code>)` when absent; the container's
`_interpret_single_value` instead matches half-open range buckets, returns
the product's `'default'` label when no range matches, and returns
`Unknown (<code>)` only for product types with no fallback map. -/
theorem claim_C4_amended :
    (∀ (m : List (ℤ × String)) (code : ℤ) (l : String),
        m.lookup code = some l → valueMapGet m code = l) ∧
    (∀ (m : List (ℤ × String)) (code : ℤ),
        m.lookup code = none → valueMapGet m code = s!"Unknown ({code})") ∧
    (∀ (product : String) (v : ℤ),
        containerFallback product = none →
          interpretSingleValue product v = s!"Unknown ({v})") ∧
    (∀ (product : String) (ranges : List ((ℤ × ℤ) × String)) (dflt : String)
        (v : ℤ),
        containerFallback product = some (ranges, dflt) →
        ranges.find? (fun r => decide (r.1.1 ≤ v ∧ v < r.1.2)) = none →
          interpretSingleValue product v = dflt) ∧
    (∀ (product : String) (ranges : List ((ℤ × ℤ) × String)) (dflt : String)
        (v : ℤ) (r : (ℤ × ℤ) × String),
        containerFallback product = some (ranges, dflt) →
        ranges.find? (fun r => decide (r.1.1 ≤ v ∧ v < r.1.2)) = some r →
          interpretSingleValue product v = r.2) := by
  refine ⟨?_, ?_, ?_, ?_, ?_⟩
  · intro m code l h
    unfold valueMapGet
    rw [h]
  · intro m code h
    unfold valueMapGet
    rw [h]
  · intro product v h
    unfold interpretSingleValue
    rw [h]
  · intro product ranges dflt v h hfind
    simp only [Bool.decide_and] at hfind
    simp [interpretSingleValue, h, hfind]
  · intro product ranges dflt v r h hfind
    simp only [Bool.decide_and] at hfind
    simp [interpretSingleValue, h, hfind]

/-- Witness for C4 (amended): exact lookup of 7298, absence default for a
table without the code, the container default for vegetation code 1, and a
range hit for vegetation code 7113. -/
theorem claim_C4_witness :
    valueMapGet [(7298, "Developed-Low Intensity")] 7298
      = "Developed-Low Intensity" ∧
    valueMapGet [(7298, "Developed-Low Intensity")] 5 = "Unknown (5)" ∧
    interpretSingleValue "vegetation_type" 1 = "Unknown Vegetation Type" ∧
    interpretSingleValue "vegetation_type" 7113 = "Urban/Developed" := by
  refine ⟨?_, ?_, ?_, ?_⟩
  · exact claim_C4_amended.1 _ 7298 _ rfl
  · exact claim_C4_amended.2.1 _ 5 rfl
  · exact claim_C4_amended.2.2.2.1 "vegetation_type"
      [((7000, 8000), "Urban/Developed"),
       ((6000, 7000), "Agriculture/Cropland"),
       ((3000, 4000), "Forest"),
       ((2000, 3000), "Grassland"),
       ((4000, 5000), "Shrubland")]
      "Unknown Vegetation Type" 1 rfl rfl
  · exact claim_C4_amended.2.2.2.2 "vegetation_type"
      [((7000, 8000), "Urban/Developed"),
       ((6000, 7000), "Agriculture/Cropland"),
       ((3000, 4000), "Forest"),
       ((2000, 3000), "Grassland"),
       ((4000, 5000), "Shrubland")]
      "Unknown Vegetation Type" 7113 ((7000, 8000), "Urban/Developed") rfl rfl

/-! ## Coverage summary (`_calculate_coverage`) -/

/-- `_calculate_coverage(pixel_values, decoded_values)` from
`landfire_interpretation.py`: for each unique value (ascending, as
`np.unique` yields), store `round(count/total*100, 2)` under the decoded
label, later values overwriting earlier ones that share a label. -/
def calcCoverage (pixel_values : List ℤ) (decoded : List (ℤ × String)) :
    List (String × ℚ) :=
  let total : ℚ := pixel_values.length
  (uniqueValues pixel_values).foldl
    (fun cov v =>
      insertOverwrite cov (valueMapGet decoded v)
        (round2 (((pixel_values.count v : ℚ) / total) * 100)))
    []

/-- Total of the reported per-label percentages. -/
def coverageSum (cov : List (String × ℚ)) : ℚ :=
  (cov.map Prod.snd).sum

/-- Counterexample to claim C5: with pixels `[1,1,1,2]` and both codes
decoding to the label `"A"`, the second code's 25% overwrites the first's
75%, so the reported percentages sum to 25, far outside `100 ± 0.01`. -/
theorem claim_C5_cex :
    coverageSum (calcCoverage [1, 1, 1, 2] [(1, "A"), (2, "A")]) = 25 ∧
    ¬(|(25 : ℚ) - 100| ≤ 1/100) := by
  constructor
  · have h1 : uniqueValues [1, 1, 1, 2] = [1, 2] := by decide
    have hv1 : valueMapGet [(1, "A"), (2, "A")] 1 = "A" := by decide
    have hv2 : valueMapGet [(1, "A"), (2, "A")] 2 = "A" := by decide
    have hc1 : List.count (1 : ℤ) [1, 1, 1, 2] = 3 := by decide
    have hc2 : List.count (2 : ℤ) [1, 1, 1, 2] = 1 := by decide
    have hr1 : round2 75 = 75 := by norm_num [round2, roundHalfEven]
    have hr2 : round2 25 = 25 := by norm_num [round2, roundHalfEven]
    simp only [calcCoverage, h1, hv1, hv2, hc1, hc2, List.foldl,
      List.length_cons, List.length_nil]
    norm_num [hr1, hr2, insertOverwrite, coverageSum]
  · intro h
    rw [abs_le] at h
    have := h.1
    norm_num at this

/-- Folding Python-dict insertions over values whose labels are pairwise
distinct and fresh for the accumulator just appends the entries in order. -/
theorem foldl_insertOverwrite_eq_append (labelOf : ℤ → String) (pctOf : ℤ → ℚ) :
    ∀ (vals : List ℤ) (acc : List (String × ℚ)),
      (vals.map labelOf).Nodup →
      (∀ v ∈ vals, labelOf v ∉ acc.map Prod.fst) →
      vals.foldl (fun cov v => insertOverwrite cov (labelOf v) (pctOf v)) acc
        = acc ++ vals.map (fun v => (labelOf v, pctOf v))
  | [], acc, _, _ => by simp
  | v :: vals, acc, hnd, hfresh => by
      simp only [List.map_cons, List.nodup_cons] at hnd
      have hstep : insertOverwrite acc (labelOf v) (pctOf v)
          = acc ++ [(labelOf v, pctOf v)] :=
        insertOverwrite_fresh acc _ _ (hfresh v (List.mem_cons_self v vals))
      have hfresh2 : ∀ w ∈ vals,
          labelOf w ∉ (acc ++ [(labelOf v, pctOf v)]).map Prod.fst := by
        intro w hw
        rw [List.map_append]
        intro hmem
        rcases List.mem_append.mp hmem with hmem | hmem
        · exact hfresh w (List.mem_cons_of_mem v hw) hmem
        · simp only [List.map_cons, List.map_nil, List.mem_singleton] at hmem
          exact hnd.1 (List.mem_map.mpr ⟨w, hw, hmem⟩)
      calc (v :: vals).foldl
              (fun cov w => insertOverwrite cov (labelOf w) (pctOf w)) acc
          = vals.foldl (fun cov w => insertOverwrite cov (labelOf w) (pctOf w))
              (acc ++ [(labelOf v, pctOf v)]) := by
            simp [List.foldl_cons, hstep]
        _ = (acc ++ [(labelOf v, pctOf v)])
              ++ vals.map (fun w => (labelOf w, pctOf w)) :=
            foldl_insertOverwrite_eq_append labelOf pctOf vals _ hnd.2 hfresh2
        _ = acc ++ (v :: vals).map (fun w => (labelOf w, pctOf w)) := by
            simp

/-- With pairwise-distinct labels the coverage dict holds exactly one rounded
percentage per unique pixel value. -/
theorem calcCoverage_of_nodup (xs : List ℤ) (decoded : List (ℤ × String))
    (hinj : ((uniqueValues xs).map (valueMapGet decoded)).Nodup) :
    calcCoverage xs decoded
      = (uniqueValues xs).map (fun v =>
          (valueMapGet decoded v,
            round2 (((xs.count v : ℚ) / xs.length) * 100))) := by
  unfold calcCoverage
  have h := foldl_insertOverwrite_eq_append (valueMapGet decoded)
    (fun v => round2 (((xs.count v : ℚ) / xs.length) * 100))
    (uniqueValues xs) [] hinj (by intro v _ hmem; simp at hmem)
  simpa using h

/-- The sum of rounded values differs from the sum of the raw values by at
most `1/200` per element. -/
theorem sum_round2_close (f : ℤ → ℚ) (l : List ℤ) :
    |(l.map (fun v => round2 (f v))).sum - (l.map f).sum|
      ≤ (l.length : ℚ) * (1/200) := by
  induction l with
  | nil => simp
  | cons x l ih =>
      have hx := round2_close (f x)
      have htri : |round2 (f x) + (l.map (fun v => round2 (f v))).sum
          - (f x + (l.map f).sum)|
          ≤ |round2 (f x) - f x|
            + |(l.map (fun v => round2 (f v))).sum - (l.map f).sum| := by
        have : round2 (f x) + (l.map (fun v => round2 (f v))).sum
            - (f x + (l.map f).sum)
            = (round2 (f x) - f x)
              + ((l.map (fun v => round2 (f v))).sum - (l.map f).sum) := by
          ring
        rw [this]
        exact abs_add _ _
      simp only [List.map_cons, List.sum_cons, List.length_cons]
      calc |round2 (f x) + (l.map (fun v => round2 (f v))).sum
              - (f x + (l.map f).sum)|
          ≤ |round2 (f x) - f x|
            + |(l.map (fun v => round2 (f v))).sum - (l.map f).sum| := htri
        _ ≤ 1/200 + (l.length : ℚ) * (1/200) := add_le_add hx ih
        _ = ((l.length + 1 : ℕ) : ℚ) * (1/200) := by push_cast; ring

/-- The raw (unrounded) percentages over the unique values of a non-empty
pixel list sum to exactly 100. -/
theorem sum_raw_percentages (xs : List ℤ) (hne : xs ≠ []) :
    ((uniqueValues xs).map
        (fun v => ((xs.count v : ℚ) / xs.length) * 100)).sum = 100 := by
  have hperm : List.Perm
      ((uniqueValues xs).map (fun v => ((xs.count v : ℚ) / xs.length) * 100))
      (xs.dedup.map (fun v => ((xs.count v : ℚ) / xs.length) * 100)) :=
    (uniqueValues_perm_dedup xs).map _
  rw [hperm.sum_eq]
  have hcount : ((xs.dedup.map (fun v => (xs.count v : ℚ))).sum : ℚ)
      = (xs.length : ℚ) := by
    have h := List.sum_map_count_dedup_eq_length xs
    have : (xs.dedup.map (fun v => (xs.count v : ℚ))).sum
        = (((xs.dedup.map (fun v => xs.count v)).sum : ℕ) : ℚ) := by
      rw [Nat.cast_list_sum, List.map_map]
      rfl
    rw [this, h]
  have hlen : (xs.length : ℚ) ≠ 0 := by
    have hpos := List.length_pos.mpr hne
    exact ne_of_gt (by exact_mod_cast hpos)
  have hfactor : ∀ v : ℤ, ((xs.count v : ℚ) / xs.length) * 100
      = (xs.count v : ℚ) * (100 / xs.length) := by
    intro v; ring
  calc (xs.dedup.map (fun v => ((xs.count v : ℚ) / xs.length) * 100)).sum
      = (xs.dedup.map (fun v => (xs.count v : ℚ) * (100 / xs.length))).sum := by
        simp only [hfactor]
    _ = (xs.dedup.map (fun v => (xs.count v : ℚ))).sum * (100 / xs.length) := by
        rw [← List.sum_map_mul_right]
    _ = (xs.length : ℚ) * (100 / xs.length) := by rw [hcount]
    _ = 100 := by field_simp

/-- Claim C5 (amended): for a non-empty valid-pixel set whose distinct codes
decode to pairwise-distinct labels, the reported per-label percentages sum
to 100 within ±1/200 per distinct code (the original ±0.01 bound fails once
more than two labels round in the same direction, and when two distinct
codes share a label the later rounded percentage overwrites the earlier
one, as the counterexample shows). -/
theorem claim_C5_amended (xs : List ℤ) (decoded : List (ℤ × String))
    (hne : xs ≠ [])
    (hinj : ((uniqueValues xs).map (valueMapGet decoded)).Nodup) :
    |coverageSum (calcCoverage xs decoded) - 100|
      ≤ ((uniqueValues xs).length : ℚ) / 200 := by
  rw [calcCoverage_of_nodup xs decoded hinj]
  have hsum : coverageSum ((uniqueValues xs).map (fun v =>
      (valueMapGet decoded v,
        round2 (((xs.count v : ℚ) / xs.length) * 100))))
      = ((uniqueValues xs).map (fun v =>
          round2 (((xs.count v : ℚ) / xs.length) * 100))).sum := by
    unfold coverageSum
    rw [List.map_map]
    rfl
  rw [hsum]
  have h := sum_round2_close
    (fun v => ((xs.count v : ℚ) / xs.length) * 100) (uniqueValues xs)
  rw [sum_raw_percentages xs hne] at h
  have heq : ((uniqueValues xs).length : ℚ) * (1/200)
      = ((uniqueValues xs).length : ℚ) / 200 := by ring
  rw [← heq]
  exact h

/-- Witness for C5 (amended): pixels `[1,1,2]` with distinct labels; the
reported percentages (66.67 and 33.33) sum to 100 within 2/200. -/
theorem claim_C5_witness :
    ([1, 1, 2] : List ℤ) ≠ [] ∧
    ((uniqueValues [1, 1, 2]).map (valueMapGet [(1, "A"), (2, "B")])).Nodup ∧
    |coverageSum (calcCoverage [1, 1, 2] [(1, "A"), (2, "B")]) - 100|
      ≤ ((uniqueValues [1, 1, 2]).length : ℚ) / 200 :=
  ⟨by decide, by decide,
    claim_C5_amended [1, 1, 2] [(1, "A"), (2, "B")] (by decide) (by decide)⟩

/-! ## Aspect distribution (`_analyze_aspect_distribution`) -/

/-- Pixels in the wrap-around North bucket:
`(aspect_values >= 337.5) | (aspect_values <= 22.5)`. -/
def northCount (xs : List ℚ) : ℕ :=
  xs.countP (fun a => decide ((337.5 : ℚ) ≤ a ∨ a ≤ 22.5))

/-- Pixels in a half-open directional bucket `lo ≤ a < hi`. -/
def dirCount (lo hi : ℚ) (xs : List ℚ) : ℕ :=
  xs.countP (fun a => decide (lo ≤ a ∧ a < hi))

/-- `_analyze_aspect_distribution(aspect_values)` from
`landfire_interpretation.py`: empty dict on an empty array, else the eight
cardinal buckets (insertion order as in the source) with percentages
rounded to two decimals. -/
def analyzeAspectDistribution (xs : List ℚ) : List (String × ℚ) :=
  if xs.length = 0 then []
  else
    let total : ℚ := xs.length
    [("North", round2 ((northCount xs : ℚ) / total * 100)),
     ("Northeast", round2 ((dirCount 22.5 67.5 xs : ℚ) / total * 100)),
     ("East", round2 ((dirCount 67.5 112.5 xs : ℚ) / total * 100)),
     ("Southeast", round2 ((dirCount 112.5 157.5 xs : ℚ) / total * 100)),
     ("South", round2 ((dirCount 157.5 202.5 xs : ℚ) / total * 100)),
     ("Southwest", round2 ((dirCount 202.5 247.5 xs : ℚ) / total * 100)),
     ("West", round2 ((dirCount 247.5 292.5 xs : ℚ) / total * 100)),
     ("Northwest", round2 ((dirCount 292.5 337.5 xs : ℚ) / total * 100))]

/-- Counterexample to claim C6: the single aspect value 22.5 satisfies both
the North test (`a <= 22.5`) and the Northeast test (`22.5 <= a < 67.5`),
so the reported bucket percentages sum to 200, not 100 ± 0.01. -/
theorem claim_C6_cex :
    coverageSum (analyzeAspectDistribution [22.5]) = 200 ∧
    ¬(|(200 : ℚ) - 100| ≤ 1/100) := by
  constructor
  · have hN : northCount [(22.5 : ℚ)] = 1 := by
      simp only [northCount, List.countP_cons, List.countP_nil]
      norm_num
    have hNE : dirCount 22.5 67.5 [(22.5 : ℚ)] = 1 := by
      simp only [dirCount, List.countP_cons, List.countP_nil]
      norm_num
    have hz : ∀ lo hi : ℚ, 22.5 < lo →
        dirCount lo hi [(22.5 : ℚ)] = 0 := by
      intro lo hi hlo
      simp only [dirCount, List.countP_cons, List.countP_nil]
      rw [if_neg]
      simp only [decide_eq_true_eq]
      rintro ⟨h1, _⟩
      linarith
    have h100 : round2 ((1 : ℚ) / 1 * 100) = 100 := by
      norm_num [round2, roundHalfEven]
    have h0 : round2 ((0 : ℚ) / 1 * 100) = 0 := by
      norm_num [round2, roundHalfEven]
    simp only [analyzeAspectDistribution, List.length_cons, List.length_nil,
      coverageSum, List.map_cons, List.map_nil, List.sum_cons, List.sum_nil]
    rw [if_neg (by norm_num)]
    simp only [hN, hNE, hz 67.5 112.5 (by norm_num), hz 112.5 157.5 (by norm_num),
      hz 157.5 202.5 (by norm_num), hz 202.5 247.5 (by norm_num),
      hz 247.5 292.5 (by norm_num), hz 292.5 337.5 (by norm_num)]
    push_cast
    rw [h100, h0]
    norm_num
  · intro h
    rw [abs_le] at h
    have := h.2
    norm_num at this

/-- Number of the eight direction tests of `_analyze_aspect_distribution`
that a single aspect value satisfies. -/
def bucketIndicator (a : ℚ) : ℕ :=
  (if (337.5 : ℚ) ≤ a ∨ a ≤ 22.5 then 1 else 0) +
  (if (22.5 : ℚ) ≤ a ∧ a < 67.5 then 1 else 0) +
  (if (67.5 : ℚ) ≤ a ∧ a < 112.5 then 1 else 0) +
  (if (112.5 : ℚ) ≤ a ∧ a < 157.5 then 1 else 0) +
  (if (157.5 : ℚ) ≤ a ∧ a < 202.5 then 1 else 0) +
  (if (202.5 : ℚ) ≤ a ∧ a < 247.5 then 1 else 0) +
  (if (247.5 : ℚ) ≤ a ∧ a < 292.5 then 1 else 0) +
  (if (292.5 : ℚ) ≤ a ∧ a < 337.5 then 1 else 0)

/-- Splitting the range [0, 360) at the eight bucket boundaries
(excluding the doubly-counted 22.5). -/
theorem aspectRegions (a : ℚ) (h0 : 0 ≤ a) (h1 : a < 360) (hne : a ≠ 22.5) :
    a < 22.5 ∨
    ((22.5 : ℚ) < a ∧ a < 67.5) ∨
    ((67.5 : ℚ) ≤ a ∧ a < 112.5) ∨
    ((112.5 : ℚ) ≤ a ∧ a < 157.5) ∨
    ((157.5 : ℚ) ≤ a ∧ a < 202.5) ∨
    ((202.5 : ℚ) ≤ a ∧ a < 247.5) ∨
    ((247.5 : ℚ) ≤ a ∧ a < 292.5) ∨
    ((292.5 : ℚ) ≤ a ∧ a < 337.5) ∨
    (337.5 : ℚ) ≤ a := by
  rcases lt_or_le a 22.5 with h | h
  · exact Or.inl h
  have hgt : (22.5 : ℚ) < a := lt_of_le_of_ne h (Ne.symm hne)
  rcases lt_or_le a 67.5 with h2 | h2
  · exact Or.inr (Or.inl ⟨hgt, h2⟩)
  rcases lt_or_le a 112.5 with h3 | h3
  · exact Or.inr (Or.inr (Or.inl ⟨h2, h3⟩))
  rcases lt_or_le a 157.5 with h4 | h4
  · exact Or.inr (Or.inr (Or.inr (Or.inl ⟨h3, h4⟩)))
  rcases lt_or_le a 202.5 with h5 | h5
  · exact Or.inr (Or.inr (Or.inr (Or.inr (Or.inl ⟨h4, h5⟩))))
  rcases lt_or_le a 247.5 with h6 | h6
  · exact Or.inr (Or.inr (Or.inr (Or.inr (Or.inr (Or.inl ⟨h5, h6⟩)))))
  rcases lt_or_le a 292.5 with h7 | h7
  · exact Or.inr (Or.inr (Or.inr (Or.inr (Or.inr (Or.inr (Or.inl ⟨h6, h7⟩))))))
  rcases lt_or_le a 337.5 with h8 | h8
  · exact Or.inr (Or.inr (Or.inr (Or.inr (Or.inr (Or.inr (Or.inr (Or.inl ⟨h7, h8⟩)))))))
  · exact Or.inr (Or.inr (Or.inr (Or.inr (Or.inr (Or.inr (Or.inr (Or.inr h8)))))))

/-- Every in-range aspect value other than 22.5 satisfies exactly one of the
eight direction tests. -/
theorem bucketIndicator_eq_one (a : ℚ) (h0 : 0 ≤ a) (h1 : a < 360)
    (hne : a ≠ 22.5) : bucketIndicator a = 1 := by
  rcases aspectRegions a h0 h1 hne with h | h | h | h | h | h | h | h | h
  · have f0 : ((337.5 : ℚ) ≤ a ∨ a ≤ 22.5) := Or.inr h.le
    have f1 : ¬((22.5 : ℚ) ≤ a ∧ a < 67.5) := by rintro ⟨hx, hy⟩; linarith
    have f2 : ¬((67.5 : ℚ) ≤ a ∧ a < 112.5) := by rintro ⟨hx, hy⟩; linarith
    have f3 : ¬((112.5 : ℚ) ≤ a ∧ a < 157.5) := by rintro ⟨hx, hy⟩; linarith
    have f4 : ¬((157.5 : ℚ) ≤ a ∧ a < 202.5) := by rintro ⟨hx, hy⟩; linarith
    have f5 : ¬((202.5 : ℚ) ≤ a ∧ a < 247.5) := by rintro ⟨hx, hy⟩; linarith
    have f6 : ¬((247.5 : ℚ) ≤ a ∧ a < 292.5) := by rintro ⟨hx, hy⟩; linarith
    have f7 : ¬((292.5 : ℚ) ≤ a ∧ a < 337.5) := by rintro ⟨hx, hy⟩; linarith
    simp [bucketIndicator, f0, f1, f2, f3, f4, f5, f6, f7]
  · obtain ⟨hl, hr⟩ := h
    have f0 : ¬((337.5 : ℚ) ≤ a ∨ a ≤ 22.5) := by rintro (hx | hx) <;> linarith
    have f1 : (22.5 : ℚ) ≤ a ∧ a < 67.5 := ⟨by linarith, by linarith⟩
    have f2 : ¬((67.5 : ℚ) ≤ a ∧ a < 112.5) := by rintro ⟨hx, hy⟩; linarith
    have f3 : ¬((112.5 : ℚ) ≤ a ∧ a < 157.5) := by rintro ⟨hx, hy⟩; linarith
    have f4 : ¬((157.5 : ℚ) ≤ a ∧ a < 202.5) := by rintro ⟨hx, hy⟩; linarith
    have f5 : ¬((202.5 : ℚ) ≤ a ∧ a < 247.5) := by rintro ⟨hx, hy⟩; linarith
    have f6 : ¬((247.5 : ℚ) ≤ a ∧ a < 292.5) := by rintro ⟨hx, hy⟩; linarith
    have f7 : ¬((292.5 : ℚ) ≤ a ∧ a < 337.5) := by rintro ⟨hx, hy⟩; linarith
    simp [bucketIndicator, f0, f1, f2, f3, f4, f5, f6, f7]
  · obtain ⟨hl, hr⟩ := h
    have f0 : ¬((337.5 : ℚ) ≤ a ∨ a ≤ 22.5) := by rintro (hx | hx) <;> linarith
    have f1 : ¬((22.5 : ℚ) ≤ a ∧ a < 67.5) := by rintro ⟨hx, hy⟩; linarith
    have f2 : (67.5 : ℚ) ≤ a ∧ a < 112.5 := ⟨by linarith, by linarith⟩
    have f3 : ¬((112.5 : ℚ) ≤ a ∧ a < 157.5) := by rintro ⟨hx, hy⟩; linarith
    have f4 : ¬((157.5 : ℚ) ≤ a ∧ a < 202.5) := by rintro ⟨hx, hy⟩; linarith
    have f5 : ¬((202.5 : ℚ) ≤ a ∧ a < 247.5) := by rintro ⟨hx, hy⟩; linarith
    have f6 : ¬((247.5 : ℚ) ≤ a ∧ a < 292.5) := by rintro ⟨hx, hy⟩; linarith
    have f7 : ¬((292.5 : ℚ) ≤ a ∧ a < 337.5) := by rintro ⟨hx, hy⟩; linarith
    simp [bucketIndicator, f0, f1, f2, f3, f4, f5, f6, f7]
  · obtain ⟨hl, hr⟩ := h
    have f0 : ¬((337.5 : ℚ) ≤ a ∨ a ≤ 22.5) := by rintro (hx | hx) <;> linarith
    have f1 : ¬((22.5 : ℚ) ≤ a ∧ a < 67.5) := by rintro ⟨hx, hy⟩; linarith
    have f2 : ¬((67.5 : ℚ) ≤ a ∧ a < 112.5) := by rintro ⟨hx, hy⟩; linarith
    have f3 : (112.5 : ℚ) ≤ a ∧ a < 157.5 := ⟨by linarith, by linarith⟩
    have f4 : ¬((157.5 : ℚ) ≤ a ∧ a < 202.5) := by rintro ⟨hx, hy⟩; linarith
    have f5 : ¬((202.5 : ℚ) ≤ a ∧ a < 247.5) := by rintro ⟨hx, hy⟩; linarith
    have f6 : ¬((247.5 : ℚ) ≤ a ∧ a < 292.5) := by rintro ⟨hx, hy⟩; linarith
    have f7 : ¬((292.5 : ℚ) ≤ a ∧ a < 337.5) := by rintro ⟨hx, hy⟩; linarith
    simp [bucketIndicator, f0, f1, f2, f3, f4, f5, f6, f7]
  · obtain ⟨hl, hr⟩ := h
    have f0 : ¬((337.5 : ℚ) ≤ a ∨ a ≤ 22.5) := by rintro (hx | hx) <;> linarith
    have f1 : ¬((22.5 : ℚ) ≤ a ∧ a < 67.5) := by rintro ⟨hx, hy⟩; linarith
    have f2 : ¬((67.5 : ℚ) ≤ a ∧ a < 112.5) := by rintro ⟨hx, hy⟩; linarith
    have f3 : ¬((112.5 : ℚ) ≤ a ∧ a < 157.5) := by rintro ⟨hx, hy⟩; linarith
    have f4 : (157.5 : ℚ) ≤ a ∧ a < 202.5 := ⟨by linarith, by linarith⟩
    have f5 : ¬((202.5 : ℚ) ≤ a ∧ a < 247.5) := by rintro ⟨hx, hy⟩; linarith
    have f6 : ¬((247.5 : ℚ) ≤ a ∧ a < 292.5) := by rintro ⟨hx, hy⟩; linarith
    have f7 : ¬((292.5 : ℚ) ≤ a ∧ a < 337.5) := by rintro ⟨hx, hy⟩; linarith
    simp [bucketIndicator, f0, f1, f2, f3, f4, f5, f6, f7]
  · obtain ⟨hl, hr⟩ := h
    have f0 : ¬((337.5 : ℚ) ≤ a ∨ a ≤ 22.5) := by rintro (hx | hx) <;> linarith
    have f1 : ¬((22.5 : ℚ) ≤ a ∧ a < 67.5) := by rintro ⟨hx, hy⟩; linarith
    have f2 : ¬((67.5 : ℚ) ≤ a ∧ a < 112.5) := by rintro ⟨hx, hy⟩; linarith
    have f3 : ¬((112.5 : ℚ) ≤ a ∧ a < 157.5) := by rintro ⟨hx, hy⟩; linarith
    have f4 : ¬((157.5 : ℚ) ≤ a ∧ a < 202.5) := by rintro ⟨hx, hy⟩; linarith
    have f5 : (202.5 : ℚ) ≤ a ∧ a < 247.5 := ⟨by linarith, by linarith⟩
    have f6 : ¬((247.5 : ℚ) ≤ a ∧ a < 292.5) := by rintro ⟨hx, hy⟩; linarith
    have f7 : ¬((292.5 : ℚ) ≤ a ∧ a < 337.5) := by rintro ⟨hx, hy⟩; linarith
    simp [bucketIndicator, f0, f1, f2, f3, f4, f5, f6, f7]
  · obtain ⟨hl, hr⟩ := h
    have f0 : ¬((337.5 : ℚ) ≤ a ∨ a ≤ 22.5) := by rintro (hx | hx) <;> linarith
    have f1 : ¬((22.5 : ℚ) ≤ a ∧ a < 67.5) := by rintro ⟨hx, hy⟩; linarith
    have f2 : ¬((67.5 : ℚ) ≤ a ∧ a < 112.5) := by rintro ⟨hx, hy⟩; linarith
    have f3 : ¬((112.5 : ℚ) ≤ a ∧ a < 157.5) := by rintro ⟨hx, hy⟩; linarith
    have f4 : ¬((157.5 : ℚ) ≤ a ∧ a < 202.5) := by rintro ⟨hx, hy⟩; linarith
    have f5 : ¬((202.5 : ℚ) ≤ a ∧ a < 247.5) := by rintro ⟨hx, hy⟩; linarith
    have f6 : (247.5 : ℚ) ≤ a ∧ a < 292.5 := ⟨by linarith, by linarith⟩
    have f7 : ¬((292.5 : ℚ) ≤ a ∧ a < 337.5) := by rintro ⟨hx, hy⟩; linarith
    simp [bucketIndicator, f0, f1, f2, f3, f4, f5, f6, f7]
  · obtain ⟨hl, hr⟩ := h
    have f0 : ¬((337.5 : ℚ) ≤ a ∨ a ≤ 22.5) := by rintro (hx | hx) <;> linarith
    have f1 : ¬((22.5 : ℚ) ≤ a ∧ a < 67.5) := by rintro ⟨hx, hy⟩; linarith
    have f2 : ¬((67.5 : ℚ) ≤ a ∧ a < 112.5) := by rintro ⟨hx, hy⟩; linarith
    have f3 : ¬((112.5 : ℚ) ≤ a ∧ a < 157.5) := by rintro ⟨hx, hy⟩; linarith
    have f4 : ¬((157.5 : ℚ) ≤ a ∧ a < 202.5) := by rintro ⟨hx, hy⟩; linarith
    have f5 : ¬((202.5 : ℚ) ≤ a ∧ a < 247.5) := by rintro ⟨hx, hy⟩; linarith
    have f6 : ¬((247.5 : ℚ) ≤ a ∧ a < 292.5) := by rintro ⟨hx, hy⟩; linarith
    have f7 : (292.5 : ℚ) ≤ a ∧ a < 337.5 := ⟨by linarith, by linarith⟩
    simp [bucketIndicator, f0, f1, f2, f3, f4, f5, f6, f7]
  · have f0 : ((337.5 : ℚ) ≤ a ∨ a ≤ 22.5) := Or.inl h
    have f1 : ¬((22.5 : ℚ) ≤ a ∧ a < 67.5) := by rintro ⟨hx, hy⟩; linarith
    have f2 : ¬((67.5 : ℚ) ≤ a ∧ a < 112.5) := by rintro ⟨hx, hy⟩; linarith
    have f3 : ¬((112.5 : ℚ) ≤ a ∧ a < 157.5) := by rintro ⟨hx, hy⟩; linarith
    have f4 : ¬((157.5 : ℚ) ≤ a ∧ a < 202.5) := by rintro ⟨hx, hy⟩; linarith
    have f5 : ¬((202.5 : ℚ) ≤ a ∧ a < 247.5) := by rintro ⟨hx, hy⟩; linarith
    have f6 : ¬((247.5 : ℚ) ≤ a ∧ a < 292.5) := by rintro ⟨hx, hy⟩; linarith
    have f7 : ¬((292.5 : ℚ) ≤ a ∧ a < 337.5) := by rintro ⟨hx, hy⟩; linarith
    simp [bucketIndicator, f0, f1, f2, f3, f4, f5, f6, f7]

/-- Total number of bucket memberships over an aspect array. -/
def totalBucketCounts (xs : List ℚ) : ℕ :=
  northCount xs + dirCount 22.5 67.5 xs + dirCount 67.5 112.5 xs +
  dirCount 112.5 157.5 xs + dirCount 157.5 202.5 xs +
  dirCount 202.5 247.5 xs + dirCount 247.5 292.5 xs + dirCount 292.5 337.5 xs

theorem totalBucketCounts_cons (a : ℚ) (xs : List ℚ) :
    totalBucketCounts (a :: xs) = bucketIndicator a + totalBucketCounts xs := by
  simp only [totalBucketCounts, bucketIndicator, northCount, dirCount,
    List.countP_cons, decide_eq_true_eq]
  ring

theorem totalBucketCounts_eq_length (xs : List ℚ)
    (hvals : ∀ a ∈ xs, 0 ≤ a ∧ a < 360 ∧ a ≠ 22.5) :
    totalBucketCounts xs = xs.length := by
  induction xs with
  | nil => rfl
  | cons a xs ih =>
      have ha := hvals a (List.mem_cons_self a xs)
      rw [totalBucketCounts_cons,
        bucketIndicator_eq_one a ha.1 ha.2.1 ha.2.2, List.length_cons,
        ih (fun b hb => hvals b (List.mem_cons_of_mem a hb))]
      omega

/-- Claim C6 (amended): every in-range aspect value other than exactly 22.5
lies in exactly one 45°-wide bucket; the value 22.5 is double-counted (it
passes both the North and the Northeast test); the North bucket holds
exactly `[0, 22.5] ∪ [337.5, 360)` — closed, not half-open, at 22.5; and
for any non-empty array of in-range values avoiding 22.5 the reported
bucket percentages sum to 100 within ±8·(1/200) = 0.04 (the claimed ±0.01
can be exceeded once several buckets round in the same direction). -/
theorem claim_C6_amended :
    (∀ a : ℚ, 0 ≤ a → a < 360 → a ≠ 22.5 → bucketIndicator a = 1) ∧
    bucketIndicator 22.5 = 2 ∧
    (∀ a : ℚ, 0 ≤ a → a < 360 →
      (((337.5 : ℚ) ≤ a ∨ a ≤ 22.5) ↔
        (0 ≤ a ∧ a ≤ 22.5) ∨ ((337.5 : ℚ) ≤ a ∧ a < 360))) ∧
    (∀ xs : List ℚ, xs ≠ [] →
      (∀ a ∈ xs, 0 ≤ a ∧ a < 360 ∧ a ≠ 22.5) →
      |coverageSum (analyzeAspectDistribution xs) - 100| ≤ 1/25) := by
  refine ⟨bucketIndicator_eq_one, by norm_num [bucketIndicator], ?_, ?_⟩
  · intro a h0 h1
    constructor
    · rintro (h | h)
      · exact Or.inr ⟨h, h1⟩
      · exact Or.inl ⟨h0, h⟩
    · rintro (⟨_, h⟩ | ⟨h, _⟩)
      · exact Or.inr h
      · exact Or.inl h
  · intro xs hne hvals
    have hlen0 : xs.length ≠ 0 := by
      simpa [List.length_eq_zero] using hne
    unfold analyzeAspectDistribution
    rw [if_neg hlen0]
    simp only [coverageSum, List.map_cons, List.map_nil, List.sum_cons,
      List.sum_nil]
    have hLpos : (0 : ℚ) < (xs.length : ℚ) := by
      exact_mod_cast Nat.pos_of_ne_zero hlen0
    have hLne : (xs.length : ℚ) ≠ 0 := ne_of_gt hLpos
    obtain ⟨l0, u0⟩ := abs_le.mp
      (round2_close ((northCount xs : ℚ) / (xs.length : ℚ) * 100))
    obtain ⟨l1, u1⟩ := abs_le.mp
      (round2_close ((dirCount 22.5 67.5 xs : ℚ) / (xs.length : ℚ) * 100))
    obtain ⟨l2, u2⟩ := abs_le.mp
      (round2_close ((dirCount 67.5 112.5 xs : ℚ) / (xs.length : ℚ) * 100))
    obtain ⟨l3, u3⟩ := abs_le.mp
      (round2_close ((dirCount 112.5 157.5 xs : ℚ) / (xs.length : ℚ) * 100))
    obtain ⟨l4, u4⟩ := abs_le.mp
      (round2_close ((dirCount 157.5 202.5 xs : ℚ) / (xs.length : ℚ) * 100))
    obtain ⟨l5, u5⟩ := abs_le.mp
      (round2_close ((dirCount 202.5 247.5 xs : ℚ) / (xs.length : ℚ) * 100))
    obtain ⟨l6, u6⟩ := abs_le.mp
      (round2_close ((dirCount 247.5 292.5 xs : ℚ) / (xs.length : ℚ) * 100))
    obtain ⟨l7, u7⟩ := abs_le.mp
      (round2_close ((dirCount 292.5 337.5 xs : ℚ) / (xs.length : ℚ) * 100))
    have hc : ((totalBucketCounts xs : ℕ) : ℚ) = (xs.length : ℚ) := by
      exact_mod_cast totalBucketCounts_eq_length xs hvals
    simp only [totalBucketCounts] at hc
    push_cast at hc
    have hsum : (northCount xs : ℚ) / (xs.length : ℚ) * 100
        + (dirCount 22.5 67.5 xs : ℚ) / (xs.length : ℚ) * 100
        + (dirCount 67.5 112.5 xs : ℚ) / (xs.length : ℚ) * 100
        + (dirCount 112.5 157.5 xs : ℚ) / (xs.length : ℚ) * 100
        + (dirCount 157.5 202.5 xs : ℚ) / (xs.length : ℚ) * 100
        + (dirCount 202.5 247.5 xs : ℚ) / (xs.length : ℚ) * 100
        + (dirCount 247.5 292.5 xs : ℚ) / (xs.length : ℚ) * 100
        + (dirCount 292.5 337.5 xs : ℚ) / (xs.length : ℚ) * 100 = 100 := by
      field_simp
      linarith [hc]
    rw [abs_le]
    constructor
    · linarith
    · linarith

/-- Witness for C6 (amended): aspect 10° falls in exactly one bucket and the
distribution over the single-element array `[10]` sums to 100 within 0.04. -/
theorem claim_C6_witness :
    bucketIndicator 10 = 1 ∧
    |coverageSum (analyzeAspectDistribution [10]) - 100| ≤ 1/25 :=
  ⟨claim_C6_amended.1 10 (by norm_num) (by norm_num) (by norm_num),
   claim_C6_amended.2.2.2 [10] (by simp)
     (by
       intro a ha
       rw [List.mem_singleton] at ha
       subst ha
       norm_num)⟩

/-! ## Coordinate pixel sampling (`interpret_pixel_at_coordinate`) -/

/-- A rasterio affine geotransform: `x = a·col + b·row + c`,
`y = d·col + e·row + f`. -/
structure Affine where
  a : ℚ
  b : ℚ
  c : ℚ
  d : ℚ
  e : ℚ
  f : ℚ

/-- `rasterio.transform.rowcol(transform, lon, lat)`: invert the affine map
and floor the fractional pixel position, giving `(row, col)`. -/
def rowcol (t : Affine) (x y : ℚ) : ℤ × ℤ :=
  let det := t.a * t.e - t.b * t.d
  (⌊(t.a * (y - t.f) - t.d * (x - t.c)) / det⌋,
   ⌊(t.e * (x - t.c) - t.b * (y - t.f)) / det⌋)

/-- An opened raster dataset: dimensions, geotransform, nodata sentinel and
the band-1 pixel array. -/
structure RasterGrid where
  height : ℕ
  width : ℕ
  transform : Affine
  nodata : Option ℤ
  pix : ℕ → ℕ → ℤ

/-- Result of `interpret_pixel_at_coordinate`: either the coordinate-pixel
payload or an error string. -/
inductive PixelInterpretation where
  | ok (row col : ℤ) (pixel_value : ℤ) (interpreted : String)
  | error (msg : String)
deriving DecidableEq

/-- The coordinate projects to an in-bounds pixel index
(`0 <= row < pixel_array.shape[0] and 0 <= col < pixel_array.shape[1]`). -/
def inBoundsAt (grid : RasterGrid) (lat lon : ℚ) : Prop :=
  0 ≤ (rowcol grid.transform lon lat).1 ∧
  (rowcol grid.transform lon lat).1 < (grid.height : ℤ) ∧
  0 ≤ (rowcol grid.transform lon lat).2 ∧
  (rowcol grid.transform lon lat).2 < (grid.width : ℤ)

instance instDecidableInBoundsAt (grid : RasterGrid) (lat lon : ℚ) :
    Decidable (inBoundsAt grid lat lon) := by
  unfold inBoundsAt
  exact inferInstance

/-- The sampled raw pixel value at the projected position
(`int(pixel_array[row, col])`). -/
def pixAt (grid : RasterGrid) (lat lon : ℚ) : ℤ :=
  grid.pix (rowcol grid.transform lon lat).1.toNat
    (rowcol grid.transform lon lat).2.toNat

/-- `interpret_pixel_at_coordinate(geotiff_bytes, lat, lon, product_type)`
from `landfire_container.py`: convert the coordinate to a pixel index,
bounds-check it, then return the raw pixel value and its interpretation.
The function never consults the grid nodata sentinel. -/
def interpretPixelAtCoordinate (grid : RasterGrid) (lat lon : ℚ)
    (product : String) : PixelInterpretation :=
  if inBoundsAt grid lat lon then
    PixelInterpretation.ok (rowcol grid.transform lon lat).1
      (rowcol grid.transform lon lat).2 (pixAt grid lat lon)
      (interpretSingleValue product (pixAt grid lat lon))
  else .error "Coordinates outside raster bounds"

/-- A 1×1 grid with identity transform whose only pixel holds the nodata
sentinel −9999. -/
def cexGrid : RasterGrid where
  height := 1
  width := 1
  transform := { a := 1, b := 0, c := 0, d := 0, e := 1, f := 0 }
  nodata := some (-9999)
  pix := fun _ _ => -9999

/-- Counterexample to claim C7: sampling the in-bounds pixel whose value
equals the grid's nodata sentinel (−9999) returns it as a normal decoded
result instead of failing with `NoData`. -/
theorem claim_C7_cex :
    cexGrid.nodata = some (-9999) ∧
    interpretPixelAtCoordinate cexGrid (1/2) (1/2) "slope"
      = PixelInterpretation.ok 0 0 (-9999) "Unknown (-9999)" := by
  constructor
  · rfl
  · have hrc : rowcol cexGrid.transform (1/2) (1/2) = (0, 0) := by
      unfold rowcol cexGrid
      norm_num
    have hin : inBoundsAt cexGrid (1/2) (1/2) := by
      unfold inBoundsAt
      rw [hrc]
      norm_num [cexGrid]
    unfold interpretPixelAtCoordinate
    rw [if_pos hin, hrc]
    simp only [pixAt, hrc, cexGrid]
    decide

/-- Claim C7 (amended): `interpret_pixel_at_coordinate` detects only
out-of-bounds positions; it is entirely independent of the grid's nodata
sentinel, so an in-bounds pixel equal to the sentinel is returned and
interpreted as a normal value (the spec's `NoData` failure is not
implemented in this sampler). -/
theorem claim_C7_amended (grid : RasterGrid) (lat lon : ℚ) (product : String)
    (n : Option ℤ) :
    (interpretPixelAtCoordinate { grid with nodata := n } lat lon product
        = interpretPixelAtCoordinate grid lat lon product) ∧
    (inBoundsAt grid lat lon →
        interpretPixelAtCoordinate grid lat lon product
          = .ok (rowcol grid.transform lon lat).1
              (rowcol grid.transform lon lat).2
              (pixAt grid lat lon)
              (interpretSingleValue product (pixAt grid lat lon))) ∧
    (¬ inBoundsAt grid lat lon →
        interpretPixelAtCoordinate grid lat lon product
          = .error "Coordinates outside raster bounds") := by
  refine ⟨rfl, ?_, ?_⟩
  · intro hin
    unfold interpretPixelAtCoordinate
    rw [if_pos hin]
  · intro hout
    unfold interpretPixelAtCoordinate
    rw [if_neg hout]

/-- Witness for C7 (amended): on the concrete 1×1 nodata grid the sampler
returns the sentinel value as an ordinary result. -/
theorem claim_C7_witness :
    inBoundsAt cexGrid (1/2) (1/2) ∧
    interpretPixelAtCoordinate cexGrid (1/2) (1/2) "slope"
      = PixelInterpretation.ok (rowcol cexGrid.transform (1/2) (1/2)).1
          (rowcol cexGrid.transform (1/2) (1/2)).2
          (pixAt cexGrid (1/2) (1/2))
          (interpretSingleValue "slope" (pixAt cexGrid (1/2) (1/2))) := by
  have hrc : rowcol cexGrid.transform (1/2) (1/2) = (0, 0) := by
    unfold rowcol cexGrid
    norm_num
  have hin : inBoundsAt cexGrid (1/2) (1/2) := by
    unfold inBoundsAt
    rw [hrc]
    norm_num [cexGrid]
  exact ⟨hin, (claim_C7_amended cexGrid (1/2) (1/2) "slope" none).2.1 hin⟩

/-! ## Pipeline aggregation (`src/pipeline.py`) -/

/-- Behaviour of one data service's `get_data` call: it either raises (the
pipeline catches the exception) or returns a result dict whose `data` is
truthy or not, with an error-string list. -/
inductive ServiceOutcome where
  | raises (msg : String)
  | returns (hasData : Bool) (errors : List String)
deriving DecidableEq

/-- The per-source slot of the pipeline result dict: disabled info stub,
exception stub `{'errors': [msg]}`, or a fetched result. -/
inductive SourceEntryState where
  | disabled (info : String)
  | failed (msg : String)
  | fetched (hasData : Bool) (errors : List String)
deriving DecidableEq

/-- Truthiness of `results[source].get('data')`. -/
def entryHasData : SourceEntryState → Bool
  | .fetched true _ => true
  | _ => false

/-- The entry stored for a service (`none` = service disabled). -/
def entryOf : Option ServiceOutcome → String → SourceEntryState
  | none, info => .disabled info
  | some (.raises m), _ => .failed m
  | some (.returns d errs), _ => .fetched d errs

/-- Increment of `summary['total_sources']` for one service (only counted
when `get_data` did not raise). -/
def dTotal : Option ServiceOutcome → ℕ
  | some (.returns _ _) => 1
  | _ => 0

/-- Increment of `summary['successful_sources']`: data truthy and no
errors. -/
def dSuccess : Option ServiceOutcome → ℕ
  | some (.returns true []) => 1
  | _ => 0

/-- Increment of `summary['total_errors']`: 1 for a raised exception, else
the length of the returned error list. -/
def dErrors : Option ServiceOutcome → ℕ
  | some (.raises _) => 1
  | some (.returns _ errs) => errs.length
  | none => 0

/-- `data_currency` of the pipeline response. -/
structure DataCurrency where
  real_time : List String
  static : List String
  stale : List String
deriving DecidableEq

/-- `summary` of the pipeline response. -/
structure PipelineSummary where
  total_sources : ℕ
  successful_sources : ℕ
  total_errors : ℕ
  timeliness_score : ℤ
deriving DecidableEq

/-- The dict returned by `get_location_data`. -/
structure PipelineResults where
  latitude : ℚ
  longitude : ℚ
  buffer_meters : ℤ
  landfire : SourceEntryState
  modis : SourceEntryState
  elevation : SourceEntryState
  weather : SourceEntryState
  data_currency : DataCurrency
  summary : PipelineSummary
deriving DecidableEq

/-- `True` for `.ok`, `False` for a raised `ValueError`. -/
def exceptIsOk {ε α : Type} : Except ε α → Bool
  | .ok _ => true
  | .error _ => false

/-- `EnvironmentalDataPipeline.get_location_data(latitude, longitude,
buffer_meters)` from `src/pipeline.py`, composed with
`_calculate_data_currency`. Coordinates are validated first (buffer must
merely be positive), each enabled service is run with its exception caught
as data, currency lists are classified, and the timeliness score is
accumulated and clamped. `modisStale` stands for the stale-data warnings
derived from the MODIS time-series dates. -/
def getLocationData (lat lon : ℚ) (bufferOpt : Option ℤ)
    (landfire modis elevation weather : Option ServiceOutcome)
    (modisStale : List String) : Except String PipelineResults :=
  let buffer := bufferOpt.getD 1000
  if ¬(-90 ≤ lat ∧ lat ≤ 90) then
    .error s!"Invalid latitude: {lat}. Must be between -90 and 90."
  else if ¬(-180 ≤ lon ∧ lon ≤ 180) then
    .error s!"Invalid longitude: {lon}. Must be between -180 and 180."
  else if buffer ≤ 0 then
    .error s!"Invalid buffer: {buffer}. Must be positive."
  else
    let rt : List String := if dSuccess weather = 1 then ["weather"] else []
    let st : List String :=
      (if entryHasData (entryOf landfire "") then ["landfire"] else [])
      ++ (if entryHasData (entryOf elevation "") then ["elevation"] else [])
      ++ (if entryHasData (entryOf modis "") then ["modis"] else [])
    let sw : List String :=
      if entryHasData (entryOf modis "") then modisStale else []
    .ok
      { latitude := lat
        longitude := lon
        buffer_meters := buffer
        landfire := entryOf landfire "LANDFIRE access disabled in configuration"
        modis := entryOf modis "MODIS access disabled in configuration"
        elevation := entryOf elevation
          "USGS elevation access disabled in configuration"
        weather := entryOf weather
          "Weather data disabled - no API key configured"
        data_currency := { real_time := rt, static := st, stale := sw }
        summary :=
          { total_sources :=
              dTotal landfire + dTotal modis + dTotal elevation + dTotal weather
            successful_sources :=
              dSuccess landfire + dSuccess modis + dSuccess elevation
                + dSuccess weather
            total_errors :=
              dErrors landfire + dErrors modis + dErrors elevation
                + dErrors weather
            timeliness_score :=
              max 0 (min 100
                (0 + 25 * (rt.length : ℤ) + 15 * (st.length : ℤ)
                  - 10 * (sw.length : ℤ))) } }

/-- Counterexample to claim C2: buffer 50 m is outside the spec's
`[100, 50000]` range, yet `get_location_data(34.0522, -118.2437, 50)`
returns normally — the pipeline only rejects non-positive buffers. -/
theorem claim_C2_cex :
    ((50 : ℤ) < 100) ∧
    exceptIsOk (getLocationData (170261/5000) (-1182437/10000) (some 50)
      (some (.returns true [])) (some (.returns true []))
      (some (.returns true [])) (some (.returns true [])) []) = true := by
  constructor
  · norm_num
  · unfold getLocationData
    rw [if_neg (by norm_num), if_neg (by norm_num), if_neg (by norm_num)]
    rfl

/-- Claim C2 (amended): `get_location_data` raises a `ValueError` iff the
latitude is outside `[-90, 90]`, the longitude is outside `[-180, 180]`, or
the effective buffer is non-positive (the spec's `[100, 50000]` buffer
range is enforced only by the orchestrator's `DataRequest` validation, not
here); every rejection happens before any source adapter is invoked (the
outcome on an invalid request is independent of all adapter behaviours),
and on a valid request no exception escapes. -/
theorem claim_C2_amended (lat lon : ℚ) (bufferOpt : Option ℤ)
    (lf mo el we lf2 mo2 el2 we2 : Option ServiceOutcome)
    (stale stale2 : List String) :
    (exceptIsOk (getLocationData lat lon bufferOpt lf mo el we stale) = true ↔
      ((-90 ≤ lat ∧ lat ≤ 90) ∧ (-180 ≤ lon ∧ lon ≤ 180) ∧
        0 < bufferOpt.getD 1000)) ∧
    (¬((-90 ≤ lat ∧ lat ≤ 90) ∧ (-180 ≤ lon ∧ lon ≤ 180) ∧
        0 < bufferOpt.getD 1000) →
      getLocationData lat lon bufferOpt lf mo el we stale
        = getLocationData lat lon bufferOpt lf2 mo2 el2 we2 stale2) := by
  constructor
  · unfold getLocationData
    by_cases h1 : ¬(-90 ≤ lat ∧ lat ≤ 90)
    · rw [if_pos h1]
      simp only [exceptIsOk]
      constructor
      · intro h
        simp at h
      · intro h
        exact absurd h.1 h1
    · rw [if_neg h1]
      by_cases h2 : ¬(-180 ≤ lon ∧ lon ≤ 180)
      · rw [if_pos h2]
        simp only [exceptIsOk]
        constructor
        · intro h
          simp at h
        · intro h
          exact absurd h.2.1 h2
      · rw [if_neg h2]
        by_cases h3 : bufferOpt.getD 1000 ≤ 0
        · rw [if_pos h3]
          simp only [exceptIsOk]
          constructor
          · intro h
            simp at h
          · intro h
            have := h.2.2
            omega
        · rw [if_neg h3]
          simp only [exceptIsOk, true_iff]
          push_neg at h1 h2
          exact ⟨h1, h2, by omega⟩
  · intro hbad
    unfold getLocationData
    by_cases h1 : ¬(-90 ≤ lat ∧ lat ≤ 90)
    · rw [if_pos h1, if_pos h1]
    · rw [if_neg h1, if_neg h1]
      by_cases h2 : ¬(-180 ≤ lon ∧ lon ≤ 180)
      · rw [if_pos h2, if_pos h2]
      · rw [if_neg h2, if_neg h2]
        by_cases h3 : bufferOpt.getD 1000 ≤ 0
        · rw [if_pos h3, if_pos h3]
        · push_neg at h1 h2
          exact absurd ⟨h1, h2, by omega⟩ hbad

/-- Witness for C2 (amended): latitude 100 is rejected identically whatever
the adapters would have returned, and a fully valid request is accepted. -/
theorem claim_C2_witness :
    getLocationData 100 0 none (some (.returns true [])) none none none []
      = getLocationData 100 0 none none (some (.raises "boom")) none
          (some (.returns false ["x"])) ["w"] ∧
    exceptIsOk (getLocationData 34 (-118) (some 1000) none none none none [])
      = true := by
  constructor
  · exact (claim_C2_amended 100 0 none (some (.returns true [])) none none
      none none (some (.raises "boom")) none (some (.returns false ["x"]))
      [] ["w"]).2 (by intro h; have := h.1.2; norm_num at this)
  · exact (claim_C2_amended 34 (-118) (some 1000) none none none none none
      none none none [] []).1.mpr (by norm_num)

/-- Claim C8: on every response `get_location_data` returns, the reported
timeliness score equals
`25·#real_time_sources + 15·#static_sources − 10·#stale_warnings` clamped
to `[0, 100]` (and therefore always lies in `[0, 100]`). -/
theorem claim_C8 (lat lon : ℚ) (bufferOpt : Option ℤ)
    (lf mo el we : Option ServiceOutcome) (stale : List String) :
    match getLocationData lat lon bufferOpt lf mo el we stale with
    | .error _ => True
    | .ok resp =>
        resp.summary.timeliness_score
          = max 0 (min 100
              (25 * (resp.data_currency.real_time.length : ℤ)
                + 15 * (resp.data_currency.static.length : ℤ)
                - 10 * (resp.data_currency.stale.length : ℤ)))
        ∧ 0 ≤ resp.summary.timeliness_score
        ∧ resp.summary.timeliness_score ≤ 100 := by
  unfold getLocationData
  by_cases h1 : ¬(-90 ≤ lat ∧ lat ≤ 90)
  · rw [if_pos h1]
    exact trivial
  · rw [if_neg h1]
    by_cases h2 : ¬(-180 ≤ lon ∧ lon ≤ 180)
    · rw [if_pos h2]
      exact trivial
    · rw [if_neg h2]
      by_cases h3 : bufferOpt.getD 1000 ≤ 0
      · rw [if_pos h3]
        exact trivial
      · rw [if_neg h3]
        refine ⟨?_, ?_, ?_⟩
        · norm_num
        · exact le_max_left 0 _
        · exact max_le (by norm_num) (min_le_left 100 _)

/-! ## Orchestrator aggregation (`collect_environmental_data`) -/

/-- Outcome of awaiting one container fetch task: a JSON payload, or a
raised exception message (network error, non-200 status, or timeout). -/
inductive FetchOutcome where
  | ok (payload : String)
  | err (msg : String)
deriving DecidableEq

/-- Whether the container task completed without raising. -/
def fetchIsOk : FetchOutcome → Bool
  | .ok _ => true
  | .err _ => false

/-- `CONTAINER_ENDPOINTS` keys of `orchestrator.py`. -/
def containerEndpoints : List String :=
  ["landfire", "modis", "weather", "topography"]

/-- `summary` of the orchestrator response. -/
structure AggSummary where
  total_sources : ℕ
  successful_sources : ℕ
  total_errors : ℕ
  success_rate : ℚ
  errors : List String
deriving DecidableEq

/-- The aggregated `/collect` response envelope. -/
structure AggResponse where
  request_id : String
  location : ℚ × ℚ × ℤ
  landfire : Option String
  modis : Option String
  weather : Option String
  topography : Option String
  summary : AggSummary
deriving DecidableEq

/-- `container_results` after the await loop: one slot per tasked source,
`none` when the task raised. -/
def containerResults (sources : List String) (fetch : String → FetchOutcome) :
    List (String × Option String) :=
  (sources.filter (fun s => containerEndpoints.contains s)).foldl
    (fun acc s =>
      insertOverwrite acc s
        (match fetch s with
          | .ok p => some p
          | .err _ => none))
    []

/-- The `errors` list accumulated by the await loop, in task order. -/
def collectErrors (sources : List String) (fetch : String → FetchOutcome) :
    List String :=
  (sources.filter (fun s => containerEndpoints.contains s)).filterMap
    (fun s =>
      match fetch s with
      | .err m => some s!"Failed to fetch {s} data: {m}"
      | .ok _ => none)

/-- `collect_environmental_data(data_request, request)` from
`orchestrator.py`: run every requested source, count non-`None` results as
successful, attach present container outputs, and build the summary. The
function is total — a failing source contributes an error string and a
`None` slot, never an exception. -/
def collectEnvironmentalData (request_id : String) (lat lon : ℚ) (buffer : ℤ)
    (sources : List String) (fetch : String → FetchOutcome) : AggResponse :=
  let results := containerResults sources fetch
  let errors := collectErrors sources fetch
  let successful := results.countP (fun p => p.2.isSome)
  { request_id := request_id
    location := (lat, lon, buffer)
    landfire := (results.lookup "landfire").getD none
    modis := (results.lookup "modis").getD none
    weather := (results.lookup "weather").getD none
    topography := (results.lookup "topography").getD none
    summary :=
      { total_sources := sources.length
        successful_sources := successful
        total_errors := errors.length
        success_rate :=
          if sources.length = 0 then 0
          else (successful : ℚ) / (sources.length : ℚ)
        errors := errors } }

/-- Claim C1: requesting all four sources, the summary counts successes and
failures per source (so with exactly 2 successes and 2 timeouts it reports
`successful_sources = 2` and `total_errors = 2`), the envelope is always
structurally complete (`total_sources = 4`), and with zero successes a
valid envelope with `successful_sources = 0` is still returned — an
individual source failure never aborts the request. -/
theorem claim_C1 (request_id : String) (lat lon : ℚ) (buffer : ℤ)
    (fetch : String → FetchOutcome) :
    ((collectEnvironmentalData request_id lat lon buffer containerEndpoints
        fetch).summary.total_sources = 4) ∧
    ((collectEnvironmentalData request_id lat lon buffer containerEndpoints
        fetch).summary.successful_sources
      = containerEndpoints.countP (fun s => fetchIsOk (fetch s))) ∧
    ((collectEnvironmentalData request_id lat lon buffer containerEndpoints
        fetch).summary.total_errors
      = 4 - containerEndpoints.countP (fun s => fetchIsOk (fetch s))) ∧
    (containerEndpoints.countP (fun s => fetchIsOk (fetch s)) = 2 →
      (collectEnvironmentalData request_id lat lon buffer containerEndpoints
          fetch).summary.successful_sources = 2 ∧
      (collectEnvironmentalData request_id lat lon buffer containerEndpoints
          fetch).summary.total_errors = 2) ∧
    (containerEndpoints.countP (fun s => fetchIsOk (fetch s)) = 0 →
      (collectEnvironmentalData request_id lat lon buffer containerEndpoints
          fetch).summary.successful_sources = 0 ∧
      (collectEnvironmentalData request_id lat lon buffer containerEndpoints
          fetch).summary.total_errors = 4) := by
  cases h1 : fetch "landfire" <;> cases h2 : fetch "modis" <;>
    cases h3 : fetch "weather" <;> cases h4 : fetch "topography" <;>
    simp [collectEnvironmentalData, containerResults, collectErrors,
      containerEndpoints, insertOverwrite, fetchIsOk, h1, h2, h3, h4,
      List.countP_cons, List.countP_nil, List.filterMap, List.filter]

/-- Scenario fetch: landfire and modis succeed, weather and topography time
out. -/
def fetchTwoTimeouts : String → FetchOutcome :=
  fun s =>
    if s = "landfire" ∨ s = "modis" then .ok "data"
    else .err "Container request timed out after 120 seconds"

/-- Scenario fetch: every container times out. -/
def fetchAllTimeouts : String → FetchOutcome :=
  fun _ => .err "Container request timed out after 120 seconds"

/-- Witness for C1: the 2-success/2-timeout scenario reports 2 successes
and 2 errors, and the all-timeout scenario still yields an envelope with
`successful_sources = 0`. -/
theorem claim_C1_witness :
    containerEndpoints.countP (fun s => fetchIsOk (fetchTwoTimeouts s)) = 2 ∧
    (collectEnvironmentalData "req" 34 (-118) 1000 containerEndpoints
        fetchTwoTimeouts).summary.successful_sources = 2 ∧
    (collectEnvironmentalData "req" 34 (-118) 1000 containerEndpoints
        fetchTwoTimeouts).summary.total_errors = 2 ∧
    (collectEnvironmentalData "req" 34 (-118) 1000 containerEndpoints
        fetchAllTimeouts).summary.successful_sources = 0 ∧
    (collectEnvironmentalData "req" 34 (-118) 1000 containerEndpoints
        fetchAllTimeouts).summary.total_sources = 4 := by
  have hA : containerEndpoints.countP
      (fun s => fetchIsOk (fetchTwoTimeouts s)) = 2 := by decide
  have hB : containerEndpoints.countP
      (fun s => fetchIsOk (fetchAllTimeouts s)) = 0 := by decide
  have h2 := (claim_C1 "req" 34 (-118) 1000 fetchTwoTimeouts).2.2.2.1 hA
  have h0 := (claim_C1 "req" 34 (-118) 1000 fetchAllTimeouts).2.2.2.2 hB
  exact ⟨hA, h2.1, h2.2, h0.1,
    (claim_C1 "req" 34 (-118) 1000 fetchAllTimeouts).1⟩

/-! ## Attribute-table cache (`_decode_categorical_values`) -/

/-- `LANDFIREMetadataExtractor._fallback_values` of
`landfire_interpretation.py` (`.get(product_type, {})` yields the empty
table for other products). -/
def fallbackValues : String → List (ℤ × String)
  | "vegetation_type" =>
      [(7113, "Urban-Low Intensity"),
       (7118, "Urban-Medium Intensity"),
       (7296, "California Coastal Scrub"),
       (7297, "Developed-Open Space"),
       (7298, "Developed-Low Intensity"),
       (7299, "Developed-Medium Intensity")]
  | "fuel_model" =>
      [(91, "Urban/Developed (Non-burnable)"),
       (92, "Snow/Ice (Non-burnable)"),
       (93, "Agriculture (Non-burnable)"),
       (98, "Water (Non-burnable)"),
       (99, "Barren (Non-burnable)"),
       (101, "Short Grass (1 hr)"),
       (102, "Timber (Grass and Understory)"),
       (103, "Tall Grass (1 hr)"),
       (104, "Chaparral (6 ft)")]
  | _ => []

/-- The extractor's `_attribute_cache`. -/
structure DecoderCache where
  cache : List (String × List (ℤ × String))
deriving DecidableEq

/-- One call through the cache logic of `_decode_categorical_values`:
on a cache miss the S3 load is attempted (`s3` is its outcome — `none` for
a failed load, which also covers a load that returned an empty/falsy map),
and the loaded table or the fallback table is cached; on a hit the cached
table is reused. Returns the new cache, the active table, and whether an
S3 fetch was attempted. -/
def decodeStep (st : DecoderCache) (product : String)
    (s3 : Option (List (ℤ × String))) :
    DecoderCache × List (ℤ × String) × Bool :=
  match st.cache.lookup product with
  | some t => (st, t, false)
  | none =>
      let t :=
        match s3 with
        | some m => if m.isEmpty then fallbackValues product else m
        | none => fallbackValues product
      ({ cache := insertOverwrite st.cache product t }, t, true)

/-- Looking up the key just written by a Python-dict insertion yields the
written value. -/
theorem lookup_insertOverwrite {κ ν : Type} [DecidableEq κ] [BEq κ]
    [LawfulBEq κ] (l : List (κ × ν)) (k : κ) (v : ν) :
    (insertOverwrite l k v).lookup k = some v := by
  induction l with
  | nil => simp [insertOverwrite, List.lookup]
  | cons p rest ih =>
      cases p with
      | mk k₀ v₀ =>
          by_cases h : k₀ = k
          · simp [insertOverwrite, h, List.lookup]
          · simp only [insertOverwrite, if_neg h, List.lookup]
            have hbe : (k == k₀) = false := by
              rw [beq_eq_false_iff_ne]
              exact fun he => h he.symm
            rw [hbe]
            exact ih

/-- Claim C9: once a `Decode` call resolves a product type to the fallback
table (cache miss with a failed authoritative load), the fallback table is
cached, and every subsequent call for that product type reuses it and
never re-attempts the fetch, whatever the store would now return. -/
theorem claim_C9 (st : DecoderCache) (product : String)
    (s3 : Option (List (ℤ × String)))
    (hmiss : st.cache.lookup product = none)
    (hfail : s3 = none ∨ s3 = some []) :
    (decodeStep st product s3).2.1 = fallbackValues product ∧
    (decodeStep st product s3).2.2 = true ∧
    (∀ s3later : Option (List (ℤ × String)),
      decodeStep (decodeStep st product s3).1 product s3later
        = ((decodeStep st product s3).1, fallbackValues product, false)) := by
  have hstep : decodeStep st product s3
      = ({ cache := insertOverwrite st.cache product (fallbackValues product) },
         fallbackValues product, true) := by
    unfold decodeStep
    rw [hmiss]
    rcases hfail with h | h <;> subst h <;> simp
  refine ⟨by rw [hstep], by rw [hstep], ?_⟩
  intro s3later
  rw [hstep]
  unfold decodeStep
  rw [lookup_insertOverwrite]

/-- Witness for C9: starting from an empty cache, a failed load of the
vegetation table settles on the fallback and a later call (even with the
store back up) performs no fetch. -/
theorem claim_C9_witness :
    (decodeStep ⟨[]⟩ "vegetation_type" none).2.1
      = fallbackValues "vegetation_type" ∧
    decodeStep (decodeStep ⟨[]⟩ "vegetation_type" none).1 "vegetation_type"
        (some [(1, "fresh")])
      = ((decodeStep ⟨[]⟩ "vegetation_type" none).1,
         fallbackValues "vegetation_type", false) := by
  have h := claim_C9 ⟨[]⟩ "vegetation_type" none rfl (Or.inl rfl)
  exact ⟨h.1, h.2.2 (some [(1, "fresh")])⟩

/-! ## Orchestrator coordinate validation (`validate_coordinate_bounds`) -/

/-- Continental-US bounding box of `validate_coordinate_bounds`. -/
def continentalUS (lat lon : ℚ) : Prop :=
  24.5 ≤ lat ∧ lat ≤ 49.5 ∧ -125 ≤ lon ∧ lon ≤ -67

instance instDecidableContinentalUS (lat lon : ℚ) :
    Decidable (continentalUS lat lon) := by
  unfold continentalUS
  exact inferInstance

/-- Alaska bounding box (with the antimeridian split). -/
def alaska (lat lon : ℚ) : Prop :=
  54 ≤ lat ∧ lat ≤ 71.5 ∧
    ((-180 ≤ lon ∧ lon ≤ -130) ∨ (170 ≤ lon ∧ lon ≤ 180))

instance instDecidableAlaska (lat lon : ℚ) : Decidable (alaska lat lon) := by
  unfold alaska
  exact inferInstance

/-- Hawaii bounding box. -/
def hawaii (lat lon : ℚ) : Prop :=
  18 ≤ lat ∧ lat ≤ 29 ∧ -178 ≤ lon ∧ lon ≤ -154

instance instDecidableHawaii (lat lon : ℚ) : Decidable (hawaii lat lon) := by
  unfold hawaii
  exact inferInstance

/-- `validate_coordinate_bounds(latitude, longitude)` from
`orchestrator.py`: basic geographic bounds, the (0, 0) null-island check,
then the US-region check. -/
def validateCoordinateBounds (lat lon : ℚ) : Except String Unit :=
  if ¬(-90 ≤ lat ∧ lat ≤ 90) then
    .error s!"Latitude {lat} must be between -90 and 90 degrees"
  else if ¬(-180 ≤ lon ∧ lon ≤ 180) then
    .error s!"Longitude {lon} must be between -180 and 180 degrees"
  else if lat = 0 ∧ lon = 0 then
    .error "Coordinates (0, 0) are not valid - appears to be default/null coordinates"
  else if ¬(continentalUS lat lon ∨ alaska lat lon ∨ hawaii lat lon) then
    .error s!"Coordinates ({lat}, {lon}) are outside supported US regions"
  else
    .ok ()

/-- Claim C10: the orchestrator's coordinate validation rejects every
coordinate outside the Continental US / Alaska / Hawaii boxes and rejects
exactly (0, 0), even inside the basic ranges; in particular a coordinate
that is valid per the spec's `Coordinate` ranges (London, 51.5° N 0.12° W)
is rejected before any adapter could run. -/
theorem claim_C10 :
    (∀ lat lon : ℚ, ¬(continentalUS lat lon ∨ alaska lat lon ∨ hawaii lat lon) →
      exceptIsOk (validateCoordinateBounds lat lon) = false) ∧
    exceptIsOk (validateCoordinateBounds 0 0) = false ∧
    ((-90 : ℚ) ≤ 51.5 ∧ (51.5 : ℚ) ≤ 90 ∧ (-180 : ℚ) ≤ -0.12 ∧
      (-0.12 : ℚ) ≤ 180) ∧
    exceptIsOk (validateCoordinateBounds 51.5 (-0.12)) = false := by
  have hreject : ∀ lat lon : ℚ,
      ¬(continentalUS lat lon ∨ alaska lat lon ∨ hawaii lat lon) →
      exceptIsOk (validateCoordinateBounds lat lon) = false := by
    intro lat lon hreg
    unfold validateCoordinateBounds
    split_ifs with g1 g2 g3
    · rfl
    · rfl
    · rfl
    · rfl
  have hlondon : ¬(continentalUS 51.5 (-0.12) ∨ alaska 51.5 (-0.12) ∨
      hawaii 51.5 (-0.12)) := by
    unfold continentalUS alaska hawaii
    push_neg
    norm_num
  have hzero : ¬(continentalUS 0 0 ∨ alaska 0 0 ∨ hawaii 0 0) := by
    unfold continentalUS alaska hawaii
    push_neg
    norm_num
  exact ⟨hreject, hreject 0 0 hzero, by norm_num,
    hreject 51.5 (-0.12) hlondon⟩

/-- Witness for C10: the rejection clause applied to the concrete London
coordinate, which satisfies the spec's basic `Coordinate` ranges. -/
theorem claim_C10_witness :
    exceptIsOk (validateCoordinateBounds 51.5 (-0.12)) = false :=
  claim_C10.1 51.5 (-0.12)
    (by
      unfold continentalUS alaska hawaii
      push_neg
      norm_num)
